import Mathlib

/-!
Shallow embedding of the Kafka-broker protocol core (`src/main.rs`, `src/readers.rs`).

Bytes are modelled as `Nat` values (each in `[0, 256)`); byte sequences as
`List Nat`. Rust's `i16`/`i32` values are modelled as `Int`, with wrapping made
explicit via `% 2^16` / `% 2^32` at the encode boundary. Rust `Result` becomes
`Except`; a Rust `String` is modelled by its UTF-8 byte content (which is
exactly what `String` stores). Reading from a `TcpStream` is modelled by a
`List Nat` holding every byte the peer sends before closing; a `read_exact`
that would need more bytes than remain fails with an I/O error, just as the
blocking call does at EOF.
-/

instance {ε α : Type} [DecidableEq ε] [DecidableEq α] : DecidableEq (Except ε α) :=
  fun x y =>
    match x, y with
    | .ok a, .ok b =>
      if h : a = b then isTrue (by rw [h])
      else isFalse (fun hh => by cases hh; exact h rfl)
    | .error a, .error b =>
      if h : a = b then isTrue (by rw [h])
      else isFalse (fun hh => by cases hh; exact h rfl)
    | .ok _, .error _ => isFalse (fun hh => by cases hh)
    | .error _, .ok _ => isFalse (fun hh => by cases hh)

/-- Big-endian interpretation of a byte list as an unsigned number
(Rust: the accumulation done by `from_be_bytes`). -/
def beToNat (l : List Nat) : Nat :=
  l.foldl (fun acc b => acc * 256 + b) 0

/-- Embeds `i16::from_be_bytes`: two big-endian bytes to a signed 16-bit value. -/
def i16_from_be_bytes (b : List Nat) : Int :=
  let u := beToNat b
  if u < 32768 then (u : Int) else (u : Int) - 65536

/-- Embeds `i32::from_be_bytes`: four big-endian bytes to a signed 32-bit value. -/
def i32_from_be_bytes (b : List Nat) : Int :=
  let u := beToNat b
  if u < 2147483648 then (u : Int) else (u : Int) - 4294967296

/-- Embeds `i16::to_be_bytes` (two's complement, big-endian). -/
def i16_to_be_bytes (x : Int) : List Nat :=
  let u := (x % 65536).toNat
  [u / 256, u % 256]

/-- Embeds `i32::to_be_bytes` (two's complement, big-endian). -/
def i32_to_be_bytes (x : Int) : List Nat :=
  let u := (x % 4294967296).toNat
  [u / 16777216, u / 65536 % 256, u / 256 % 256, u % 256]

-- ### KAFKA ERROR CODES (main.rs lines 14-18) ### --

def UNKNOWN_SERVER_ERROR : Int := -1
def NONE : Int := 0
def CORRUPT_MESSAGE : Int := 2
def UNSUPPORTED_VERSION : Int := 35
def INVALID_REQUEST : Int := 42

/-- Embeds `enum KafkaError` (main.rs lines 22-36). The `Io` variant's
`std::io::Error` payload is not inspected anywhere, so it is dropped. -/
inductive KafkaError where
  | Io : KafkaError
  | InvalidMessageLength : Int → KafkaError
  | UnsupportedApiVersion : Int → KafkaError
  | InvalidString : KafkaError
  | InvalidStringLength : Int → KafkaError
  | UnsupportedApiKey : Int → KafkaError
deriving DecidableEq

/-- Embeds `KafkaError::to_error_code` (main.rs lines 39-50). -/
def KafkaError.to_error_code : KafkaError → Int
  | .Io => UNKNOWN_SERVER_ERROR
  | .UnsupportedApiKey _ => INVALID_REQUEST
  | .InvalidMessageLength _ => CORRUPT_MESSAGE
  | .InvalidString => CORRUPT_MESSAGE
  | .InvalidStringLength _ => CORRUPT_MESSAGE
  | .UnsupportedApiVersion _ => UNSUPPORTED_VERSION

-- ### BYTE READER (readers.rs) ### --

/-- Embeds `std::io::Cursor<&[u8]>`: an immutable buffer plus a read position. -/
structure Cursor where
  buffer : List Nat
  pos : Nat
deriving DecidableEq

/-- Bytes still unread at the cursor's position. -/
def Cursor.remaining (c : Cursor) : Nat :=
  c.buffer.length - c.pos

/-- Embeds `cursor.read_exact(&mut buf)` for a buffer of size `n`: succeeds
with the next `n` bytes and the advanced cursor when at least `n` bytes
remain, otherwise fails with an `UnexpectedEof` I/O error (converted to
`KafkaError::Io` by the `?` operator's `From` impl). -/
def read_exact (c : Cursor) (n : Nat) : Except KafkaError (List Nat × Cursor) :=
  if n ≤ c.remaining then
    .ok ((c.buffer.drop c.pos).take n, ⟨c.buffer, c.pos + n⟩)
  else
    .error .Io

/-- Embeds `read_int16` (readers.rs lines 7-11). -/
def read_int16 (cursor : Cursor) : Except KafkaError (Int × Cursor) :=
  match read_exact cursor 2 with
  | .error e => .error e
  | .ok (buf, c) => .ok (i16_from_be_bytes buf, c)

/-- Embeds `read_int32` (readers.rs lines 15-19). -/
def read_int32 (cursor : Cursor) : Except KafkaError (Int × Cursor) :=
  match read_exact cursor 4 with
  | .error e => .error e
  | .ok (buf, c) => .ok (i32_from_be_bytes buf, c)

/-- UTF-8 validity of a byte sequence, per the byte-range table used by
Rust's `core::str::validations` (rejecting continuation-byte starts, overlong
forms `C0`/`C1` and the overlong ranges after `E0`/`F0`, surrogates after
`ED`, and code points above `U+10FFFF` via `F4 90..`/`F5..FF`). -/
def utf8Valid : List Nat → Bool
  | [] => true
  | b :: rest =>
    if b < 128 then utf8Valid rest
    else if b < 194 then false
    else if b < 224 then
      match rest with
      | [] => false
      | b1 :: rest2 =>
        if 128 ≤ b1 ∧ b1 < 192 then utf8Valid rest2 else false
    else if b < 240 then
      match rest with
      | [] => false
      | [_] => false
      | b1 :: b2 :: rest3 =>
        if (if b = 224 then 160 ≤ b1 ∧ b1 < 192
            else if b = 237 then 128 ≤ b1 ∧ b1 < 160
            else 128 ≤ b1 ∧ b1 < 192) ∧ (128 ≤ b2 ∧ b2 < 192) then
          utf8Valid rest3
        else false
    else if b < 245 then
      match rest with
      | b1 :: b2 :: b3 :: rest4 =>
        if (if b = 240 then 144 ≤ b1 ∧ b1 < 192
            else if b = 244 then 128 ≤ b1 ∧ b1 < 144
            else 128 ≤ b1 ∧ b1 < 192) ∧ (128 ≤ b2 ∧ b2 < 192) ∧
            (128 ≤ b3 ∧ b3 < 192) then
          utf8Valid rest4
        else false
      | _ => false
    else false

/-- Embeds `String::from_utf8`: a Rust `String` is its UTF-8 byte content, so
a successful conversion returns the bytes unchanged. -/
def from_utf8 (l : List Nat) : Option (List Nat) :=
  if utf8Valid l then some l else none

/-- Embeds `read_nullable_string` (readers.rs lines 24-49). -/
def read_nullable_string (cursor : Cursor) :
    Except KafkaError (Option (List Nat) × Cursor) :=
  match read_int16 cursor with
  | .error e => .error e
  | .ok (length, c1) =>
    if length = -1 then .ok (none, c1)
    else if length < 0 then .error (.InvalidStringLength length)
    else
      match read_exact c1 length.toNat with
      | .error e => .error e
      | .ok (buf, c2) =>
        match from_utf8 buf with
        | none => .error .InvalidString
        | some s => .ok (some s, c2)

-- ### PROTOCOL CONSTANTS AND DATA MODEL (main.rs lines 52-112) ### --

/-- Embeds `struct ApiKeyVerInfo` (main.rs lines 102-106). -/
structure ApiKeyVerInfo where
  id : Int
  min : Int
  max : Int
deriving DecidableEq

/-- Embeds the static registry `API_VERS_INFO` (main.rs lines 54-58). -/
def API_VERS_INFO : List ApiKeyVerInfo :=
  [⟨17, 0, 4⟩, ⟨18, 0, 4⟩, ⟨19, 0, 4⟩]

/-- Embeds `TAG_BUFFER` (main.rs line 60). -/
def TAG_BUFFER : List Nat := [0]

/-- Embeds `struct KafkaRequestHeader` (main.rs lines 63-68); the client id
is a Rust `Option<String>`, modelled by the string's UTF-8 bytes. -/
structure KafkaRequestHeader where
  api_key : Int
  api_ver : Int
  correlation_id : Int
  client_id : Option (List Nat)
deriving DecidableEq

/-- Embeds `KafkaRequestHeader::parse` (main.rs lines 72-87): a fresh cursor
over the frame, then `read_int16`, `read_int16`, `read_int32`,
`read_nullable_string`, each error propagated by `?`. -/
def KafkaRequestHeader.parse (buffer : List Nat) :
    Except KafkaError KafkaRequestHeader :=
  match read_int16 ⟨buffer, 0⟩ with
  | .error e => .error e
  | .ok (api_key, c1) =>
    match read_int16 c1 with
    | .error e => .error e
    | .ok (api_ver, c2) =>
      match read_int32 c2 with
      | .error e => .error e
      | .ok (correlation_id, c3) =>
        match read_nullable_string c3 with
        | .error e => .error e
        | .ok (client_id, _) => .ok ⟨api_key, api_ver, correlation_id, client_id⟩

/-- Embeds `struct ApiVersionsResponse` (main.rs lines 96-99). -/
structure ApiVersionsResponse where
  correlation_id : Int
  api_key_versions : List ApiKeyVerInfo
deriving DecidableEq

/-- Embeds `struct ErrorResponse` (main.rs lines 109-112). -/
structure ErrorResponse where
  correlation_id : Int
  error_code : Int
deriving DecidableEq

/-- Embeds `enum KafkaResponse` (main.rs lines 90-93). -/
inductive KafkaResponse where
  | ApiVersions : ApiVersionsResponse → KafkaResponse
  | Error : ErrorResponse → KafkaResponse
deriving DecidableEq

-- ### CONNECTION HANDLING (main.rs lines 139-290) ### --

/-- Embeds `read_request` (main.rs lines 168-184) over the stream's byte
sequence: read exactly 4 bytes as a big-endian signed length, reject lengths
outside `(0, 1_000_000]`, then read exactly that many body bytes. A stream
that closes early makes `read_exact` fail with an I/O error. -/
def read_request (stream : List Nat) : Except KafkaError (List Nat) :=
  if stream.length < 4 then .error .Io
  else
    let size := i32_from_be_bytes (stream.take 4)
    if size ≤ 0 ∨ size > 1000000 then .error (.InvalidMessageLength size)
    else
      let rest := stream.drop 4
      if rest.length < size.toNat then .error .Io
      else .ok (rest.take size.toNat)

/-- Embeds `process_request` (main.rs lines 187-219): match on the api key
(18, then 17 | 19, then the catch-all), and inside a supported key check
`(0..=4).contains(&api_ver)`. The request buffer parameter is unused, as in
the source (`_request_buffer`). -/
def process_request (request_header : KafkaRequestHeader)
    (_request_buffer : List Nat) : Except KafkaError KafkaResponse :=
  if request_header.api_key = 18 then
    if ¬ (0 ≤ request_header.api_ver ∧ request_header.api_ver ≤ 4) then
      .error (.UnsupportedApiVersion request_header.api_ver)
    else
      .ok (.ApiVersions ⟨request_header.correlation_id, API_VERS_INFO⟩)
  else if request_header.api_key = 17 ∨ request_header.api_key = 19 then
    if ¬ (0 ≤ request_header.api_ver ∧ request_header.api_ver ≤ 4) then
      .error (.UnsupportedApiVersion request_header.api_ver)
    else
      .ok (.ApiVersions ⟨request_header.correlation_id, API_VERS_INFO⟩)
  else
    .error (.UnsupportedApiKey request_header.api_key)

/-- Embeds the `res_buf` construction in `send_response` (main.rs lines
223-265): the response body, without the length prefix. The compact-array
byte is `len as u8 + 1`, i.e. arithmetic on `u8` (wrapping modelled by
`% 256`). -/
def encode_response : KafkaResponse → List Nat
  | .ApiVersions api_versions =>
    i32_to_be_bytes api_versions.correlation_id ++
    i16_to_be_bytes NONE ++
    [(api_versions.api_key_versions.length % 256 + 1) % 256] ++
    (api_versions.api_key_versions.map (fun api_key =>
      i16_to_be_bytes api_key.id ++ i16_to_be_bytes api_key.min ++
      i16_to_be_bytes api_key.max ++ TAG_BUFFER)).flatten ++
    [0, 0, 0, 0] ++
    TAG_BUFFER
  | .Error err_res =>
    i32_to_be_bytes err_res.correlation_id ++
    i16_to_be_bytes err_res.error_code

/-- Embeds `write_response_with_len` (main.rs lines 272-290): the 4-byte
big-endian length prefix (`len as i32`) followed by the body. The returned
list is the byte sequence written to the stream. -/
def write_response_with_len (response_buffer : List Nat) : List Nat :=
  i32_to_be_bytes (response_buffer.length : Int) ++ response_buffer

/-- Embeds `send_response` (main.rs lines 222-269) as the byte sequence it
writes: the encoded body re-framed with its length prefix. -/
def send_response (response : KafkaResponse) : List Nat :=
  write_response_with_len (encode_response response)

/-- Embeds step 3 of `handle_connection` (main.rs lines 154-160): a
`process_request` error is converted into an `ErrorResponse` carrying the
request's correlation id and the mapped error code. -/
def response_for (request_header : KafkaRequestHeader)
    (request_buffer : List Nat) : KafkaResponse :=
  match process_request request_header request_buffer with
  | .ok response => response
  | .error e => .Error ⟨request_header.correlation_id, e.to_error_code⟩

/-- Embeds `handle_connection` (main.rs lines 139-165) as a function from
the connection's inbound byte sequence to what is written back:
`.error e` models the handler returning `Err` (framing or I/O failure,
nothing written), `.ok none` models the header-parse-failure path that logs
and returns `Ok(())` without writing, and `.ok (some bytes)` models a
response written to the stream. -/
def handle_connection (stream : List Nat) :
    Except KafkaError (Option (List Nat)) :=
  match read_request stream with
  | .error e => .error e
  | .ok request_buffer =>
    match KafkaRequestHeader.parse request_buffer with
    | .error _ => .ok none
    | .ok request_header =>
      .ok (some (send_response (response_for request_header request_buffer)))

-- ### HELPER LEMMAS ### --

lemma read_exact_err (c : Cursor) (n : Nat) (h : c.remaining < n) :
    read_exact c n = .error .Io := by
  unfold read_exact
  rw [if_neg (by omega)]

lemma read_exact_ok (c : Cursor) (n : Nat) (s : List Nat) (c2 : Cursor)
    (h : read_exact c n = .ok (s, c2)) :
    s.length = n ∧ c2.buffer = c.buffer ∧ c2.pos = c.pos + n := by
  unfold read_exact at h
  split at h
  next hle =>
    simp only [Except.ok.injEq, Prod.mk.injEq] at h
    obtain ⟨hs, hc⟩ := h
    subst hs
    subst hc
    refine ⟨?_, rfl, rfl⟩
    unfold Cursor.remaining at hle
    simp only [List.length_take, List.length_drop]
    omega
  next => simp at h

lemma read_nullable_string_eq (c c1 : Cursor) (L : Int)
    (hlen : read_int16 c = .ok (L, c1)) :
    read_nullable_string c =
      (if L = -1 then .ok (none, c1)
       else if L < 0 then .error (.InvalidStringLength L)
       else
         match read_exact c1 L.toNat with
         | .error e => .error e
         | .ok (buf, c2) =>
           match from_utf8 buf with
           | .none => .error .InvalidString
           | .some s => .ok (some s, c2)) := by
  unfold read_nullable_string
  rw [hlen]

lemma i32_round (n : Nat) (h : n < 2147483648) :
    i32_from_be_bytes (i32_to_be_bytes (n : Int)) = (n : Int) := by
  unfold i32_to_be_bytes i32_from_be_bytes beToNat
  have h1 : ((n : Int) % 4294967296).toNat = n := by omega
  rw [h1]
  simp only [List.foldl, Nat.zero_mul, Nat.zero_add]
  have h2 : ((n / 16777216 * 256 + n / 65536 % 256) * 256 + n / 256 % 256) * 256 +
      n % 256 = n := by omega
  rw [h2, if_pos h]

-- ### CLAIM THEOREMS ### --

/-- Claim C9: `read_int16` and `read_int32` never read past the end of the
buffer: with fewer than 2 (respectively 4) bytes remaining they fail with the
truncation (I/O) error, and on success they advance the cursor by exactly 2
(respectively 4) positions, leaving the underlying buffer unchanged. -/
theorem read_int_bounds (c : Cursor) :
    (c.remaining < 2 → read_int16 c = .error .Io) ∧
    (∀ v c2, read_int16 c = .ok (v, c2) →
      c2.buffer = c.buffer ∧ c2.pos = c.pos + 2) ∧
    (c.remaining < 4 → read_int32 c = .error .Io) ∧
    (∀ v c2, read_int32 c = .ok (v, c2) →
      c2.buffer = c.buffer ∧ c2.pos = c.pos + 4) := by
  refine ⟨?_, ?_, ?_, ?_⟩
  · intro h
    unfold read_int16
    rw [read_exact_err c 2 h]
  · intro v c2 h
    unfold read_int16 at h
    cases he : read_exact c 2 with
    | error e => rw [he] at h; exact absurd h (by simp)
    | ok p =>
      obtain ⟨buf, c3⟩ := p
      rw [he] at h
      simp only [Except.ok.injEq, Prod.mk.injEq] at h
      obtain ⟨-, hc⟩ := h
      subst hc
      exact ⟨(read_exact_ok c 2 buf c3 he).2.1, (read_exact_ok c 2 buf c3 he).2.2⟩
  · intro h
    unfold read_int32
    rw [read_exact_err c 4 h]
  · intro v c2 h
    unfold read_int32 at h
    cases he : read_exact c 4 with
    | error e => rw [he] at h; exact absurd h (by simp)
    | ok p =>
      obtain ⟨buf, c3⟩ := p
      rw [he] at h
      simp only [Except.ok.injEq, Prod.mk.injEq] at h
      obtain ⟨-, hc⟩ := h
      subst hc
      exact ⟨(read_exact_ok c 4 buf c3 he).2.1, (read_exact_ok c 4 buf c3 he).2.2⟩

/-- Witness for C9 at a one-byte buffer: both readers fail with the I/O
(truncation) error instead of reading out of bounds. -/
theorem read_int_bounds_witness :
    read_int16 ⟨[5], 0⟩ = .error .Io ∧ read_int32 ⟨[5], 0⟩ = .error .Io :=
  ⟨(read_int_bounds ⟨[5], 0⟩).1 (by decide),
   (read_int_bounds ⟨[5], 0⟩).2.2.1 (by decide)⟩

/-- Claim C6: `read_request` interprets the first 4 bytes as a big-endian
signed 32-bit length `N`, fails with `InvalidMessageLength N` exactly when
`N ≤ 0` or `N > 1_000_000` — and then regardless of what body bytes follow —
and for in-range `N` with enough bytes available returns exactly the next
`N` bytes. -/
theorem read_request_length_validation (b0 b1 b2 b3 : Nat) (rest : List Nat) :
    (i32_from_be_bytes [b0, b1, b2, b3] ≤ 0 ∨
        i32_from_be_bytes [b0, b1, b2, b3] > 1000000 →
      read_request (b0 :: b1 :: b2 :: b3 :: rest) =
        .error (.InvalidMessageLength (i32_from_be_bytes [b0, b1, b2, b3]))) ∧
    (0 < i32_from_be_bytes [b0, b1, b2, b3] →
      i32_from_be_bytes [b0, b1, b2, b3] ≤ 1000000 →
      (∀ N, read_request (b0 :: b1 :: b2 :: b3 :: rest) ≠
        .error (.InvalidMessageLength N)) ∧
      ((i32_from_be_bytes [b0, b1, b2, b3]).toNat ≤ rest.length →
        read_request (b0 :: b1 :: b2 :: b3 :: rest) =
          .ok (rest.take (i32_from_be_bytes [b0, b1, b2, b3]).toNat))) := by
  have h4 : ¬ ((b0 :: b1 :: b2 :: b3 :: rest).length < 4) := by
    simp only [List.length_cons]
    omega
  have ht : (b0 :: b1 :: b2 :: b3 :: rest).take 4 = [b0, b1, b2, b3] := rfl
  have hd : (b0 :: b1 :: b2 :: b3 :: rest).drop 4 = rest := rfl
  constructor
  · intro hbad
    unfold read_request
    rw [if_neg h4]
    simp only [ht, hd]
    rw [if_pos hbad]
  · intro h1 h2
    unfold read_request
    rw [if_neg h4]
    simp only [ht, hd]
    rw [if_neg (by omega)]
    constructor
    · intro N
      split
      · simp
      · simp
    · intro hle
      rw [if_neg (by omega)]

/-- Witness for C6: a zero length is rejected without a body, and an in-range
length returns exactly that many body bytes. -/
theorem read_request_length_validation_witness :
    read_request [0, 0, 0, 0] = .error (.InvalidMessageLength 0) ∧
    read_request [0, 0, 0, 2, 7, 8] = .ok [7, 8] := by
  constructor
  · exact ((read_request_length_validation 0 0 0 0 []).1 (by decide)).trans (by decide)
  · exact (((read_request_length_validation 0 0 0 2 [7, 8]).2 (by decide)
      (by decide)).2 (by decide)).trans (by decide)

/-- Claim C7: `read_nullable_string` reads a 16-bit signed big-endian length
`L`; `L = -1` yields an absent string, `L < -1` fails with
`InvalidStringLength L` (never treated as empty or absent), and `L ≥ 0`
reads exactly `L` bytes, returning them when they are valid UTF-8 and
failing with the invalid-UTF-8 error otherwise. -/
theorem read_nullable_string_spec (c c1 : Cursor) (L : Int)
    (hlen : read_int16 c = .ok (L, c1)) :
    (L = -1 → read_nullable_string c = .ok (none, c1)) ∧
    (L < -1 → read_nullable_string c = .error (.InvalidStringLength L)) ∧
    (0 ≤ L → ∀ s c2, read_exact c1 L.toNat = .ok (s, c2) →
      s.length = L.toNat ∧
      read_nullable_string c =
        (if utf8Valid s then .ok (some s, c2) else .error .InvalidString)) ∧
    (0 ≤ L → read_exact c1 L.toNat = .error .Io →
      read_nullable_string c = .error .Io) := by
  refine ⟨?_, ?_, ?_, ?_⟩
  · intro h
    rw [read_nullable_string_eq c c1 L hlen, if_pos h]
  · intro h
    rw [read_nullable_string_eq c c1 L hlen, if_neg (by omega), if_pos (by omega)]
  · intro h0 s c2 hex
    refine ⟨(read_exact_ok c1 L.toNat s c2 hex).1, ?_⟩
    rw [read_nullable_string_eq c c1 L hlen, if_neg (by omega), if_neg (by omega), hex]
    by_cases hu : utf8Valid s
    · simp [from_utf8, hu]
    · simp [from_utf8, hu]
  · intro h0 hex
    rw [read_nullable_string_eq c c1 L hlen, if_neg (by omega), if_neg (by omega), hex]

/-- Witness for C7: a length of 1 followed by the ASCII byte `A` yields the
one-byte string and a cursor advanced past it. -/
theorem read_nullable_string_spec_witness :
    read_nullable_string ⟨[0, 1, 65], 0⟩ = .ok (some [65], ⟨[0, 1, 65], 3⟩) := by
  have h := ((read_nullable_string_spec ⟨[0, 1, 65], 0⟩ ⟨[0, 1, 65], 2⟩ 1
      (by decide)).2.2.1 (by decide) [65] ⟨[0, 1, 65], 3⟩ (by decide)).2
  exact h.trans (by decide)

/-- Claim C5 counterexample: a truncated header read does not map to wire
error code 2. Parsing an empty frame fails with `KafkaError::Io` (the
`UnexpectedEof` from `read_exact`), and `to_error_code` sends `Io` to `-1`
(`UNKNOWN_SERVER_ERROR`), not to `2` (`CORRUPT_MESSAGE`). -/
theorem truncated_header_error_code_counterexample :
    KafkaRequestHeader.parse [] = .error .Io ∧
    KafkaError.Io.to_error_code = -1 ∧
    ¬ KafkaError.Io.to_error_code = 2 := by decide

/-- Claim C5 amended: invalid string lengths and invalid UTF-8 map to wire
error code 2 (`CORRUPT_MESSAGE`), but a truncated header read surfaces as
`KafkaError::Io`, which `to_error_code` maps to `-1`
(`UNKNOWN_SERVER_ERROR`). -/
theorem header_decode_error_codes (L : Int) (c : Cursor) (h : c.remaining < 2) :
    (KafkaError.InvalidStringLength L).to_error_code = CORRUPT_MESSAGE ∧
    KafkaError.InvalidString.to_error_code = CORRUPT_MESSAGE ∧
    read_int16 c = .error .Io ∧
    KafkaError.Io.to_error_code = UNKNOWN_SERVER_ERROR := by
  refine ⟨rfl, rfl, ?_, rfl⟩
  unfold read_int16
  rw [read_exact_err c 2 h]

/-- Witness for the amended C5 at length `-2` and an empty cursor. -/
theorem header_decode_error_codes_witness :
    (KafkaError.InvalidStringLength (-2)).to_error_code = CORRUPT_MESSAGE ∧
    KafkaError.InvalidString.to_error_code = CORRUPT_MESSAGE ∧
    read_int16 ⟨[], 0⟩ = .error .Io ∧
    KafkaError.Io.to_error_code = UNKNOWN_SERVER_ERROR :=
  header_decode_error_codes (-2) ⟨[], 0⟩ (by decide)

/-- Claim C2 counterexample: a frame whose client-id length field is `-2`
fails header decoding with `InvalidStringLength (-2)` after the correlation
id `7` was already decodable at offset 4, yet `handle_connection` writes no
response at all (`.ok none`) — no `CORRUPT_MESSAGE` error response carrying
the correlation id is ever sent. -/
theorem header_decode_drop_counterexample :
    read_request [0, 0, 0, 10, 0, 18, 0, 4, 0, 0, 0, 7, 255, 254] =
      .ok [0, 18, 0, 4, 0, 0, 0, 7, 255, 254] ∧
    read_int32 ⟨[0, 18, 0, 4, 0, 0, 0, 7, 255, 254], 4⟩ =
      .ok (7, ⟨[0, 18, 0, 4, 0, 0, 0, 7, 255, 254], 8⟩) ∧
    KafkaRequestHeader.parse [0, 18, 0, 4, 0, 0, 0, 7, 255, 254] =
      .error (.InvalidStringLength (-2)) ∧
    handle_connection [0, 0, 0, 10, 0, 18, 0, 4, 0, 0, 0, 7, 255, 254] =
      .ok none := by decide

/-- Claim C2 amended: on every header-decode failure — whether or not a
correlation id was already decoded — `handle_connection` logs, sends
nothing, and returns success; the current request is simply dropped. -/
theorem header_decode_no_response (stream buf : List Nat) (e : KafkaError)
    (hr : read_request stream = .ok buf)
    (hp : KafkaRequestHeader.parse buf = .error e) :
    handle_connection stream = .ok none := by
  simp only [handle_connection, hr, hp]

/-- Witness for the amended C2 at the invalid-string-length frame. -/
theorem header_decode_no_response_witness :
    handle_connection [0, 0, 0, 10, 0, 18, 0, 4, 0, 0, 0, 7, 255, 254] =
      .ok none :=
  header_decode_no_response _ [0, 18, 0, 4, 0, 0, 0, 7, 255, 254]
    (.InvalidStringLength (-2)) (by decide) (by decide)

/-- Claim C4: any api key outside `{17, 18, 19}` fails negotiation with
`UnsupportedApiKey` and is answered with error code 42 (`INVALID_REQUEST`)
for every api version whatsoever — the key lookup is decided before any
version check, so 35 is never produced. -/
theorem unsupported_key_error_response (h : KafkaRequestHeader) (b : List Nat)
    (hk : ¬ (h.api_key = 17 ∨ h.api_key = 18 ∨ h.api_key = 19)) :
    process_request h b = .error (.UnsupportedApiKey h.api_key) ∧
    response_for h b = .Error ⟨h.correlation_id, 42⟩ := by
  have h17 : ¬ h.api_key = 17 := fun hh => hk (Or.inl hh)
  have h18 : ¬ h.api_key = 18 := fun hh => hk (Or.inr (Or.inl hh))
  have h19 : ¬ h.api_key = 19 := fun hh => hk (Or.inr (Or.inr hh))
  have hp : process_request h b = .error (.UnsupportedApiKey h.api_key) := by
    unfold process_request
    rw [if_neg h18, if_neg (by tauto)]
  refine ⟨hp, ?_⟩
  unfold response_for
  rw [hp]
  rfl

/-- Witness for C4 at api key 99 with an out-of-range api version 5: the
code is 42, not 35. -/
theorem unsupported_key_error_response_witness :
    process_request ⟨99, 5, 1, none⟩ [] = .error (.UnsupportedApiKey 99) ∧
    response_for ⟨99, 5, 1, none⟩ [] = .Error ⟨1, 42⟩ :=
  unsupported_key_error_response ⟨99, 5, 1, none⟩ [] (by decide)

/-- Claim C3: a supported api key with an api version outside `[0, 4]` is
answered with the error response carrying the request's correlation id and
error code 35, whose wire form is the 4-byte length prefix `6`, the 4-byte
big-endian correlation id, and the 2 bytes `00 23` — nothing else. -/
theorem unsupported_version_error_response (h : KafkaRequestHeader)
    (b : List Nat)
    (hk : h.api_key = 17 ∨ h.api_key = 18 ∨ h.api_key = 19)
    (hv : ¬ (0 ≤ h.api_ver ∧ h.api_ver ≤ 4)) :
    response_for h b = .Error ⟨h.correlation_id, 35⟩ ∧
    encode_response (.Error ⟨h.correlation_id, 35⟩) =
      i32_to_be_bytes h.correlation_id ++ [0, 35] ∧
    send_response (response_for h b) =
      [0, 0, 0, 6] ++ i32_to_be_bytes h.correlation_id ++ [0, 35] := by
  have hp : process_request h b = .error (.UnsupportedApiVersion h.api_ver) := by
    unfold process_request
    rcases hk with h17 | h18 | h19
    · rw [if_neg (by omega), if_pos (Or.inl h17), if_pos hv]
    · rw [if_pos h18, if_pos hv]
    · rw [if_neg (by omega), if_pos (Or.inr h19), if_pos hv]
  have hres : response_for h b = .Error ⟨h.correlation_id, 35⟩ := by
    unfold response_for
    rw [hp]
    rfl
  have he : encode_response (.Error ⟨h.correlation_id, 35⟩) =
      i32_to_be_bytes h.correlation_id ++ [0, 35] := by
    have h35 : i16_to_be_bytes 35 = [0, 35] := by decide
    simp only [encode_response, h35]
  refine ⟨hres, he, ?_⟩
  rw [hres]
  unfold send_response write_response_with_len
  rw [he]
  have hl : ((i32_to_be_bytes h.correlation_id ++ [0, 35]).length : Int) = 6 := by
    simp [i32_to_be_bytes]
  rw [hl]
  have h6 : i32_to_be_bytes 6 = [0, 0, 0, 6] := by decide
  rw [h6]
  exact (List.append_assoc _ _ _).symm

/-- Witness for C3 at the spec's scenario: correlation id `0x6f7fc661` and
api version 5 give exactly the wire bytes
`00 00 00 06 6f 7f c6 61 00 23`. -/
theorem unsupported_version_error_response_witness :
    send_response (response_for ⟨18, 5, 1870644833, none⟩ []) =
      [0, 0, 0, 6, 111, 127, 198, 97, 0, 35] := by
  have h := (unsupported_version_error_response ⟨18, 5, 1870644833, none⟩ []
      (Or.inr (Or.inl rfl)) (by decide)).2.2
  exact h.trans (by decide)

/-- Claim C1: for a supported api key (17, 18 or 19) with api version in
`[0, 4]`, negotiation succeeds with the full registry, and the encoded
response body is exactly: the 4-byte big-endian correlation id, error code 0
(2 bytes), the compact-array byte 4 (three entries plus one), the three
registry entries in registry order (id, min 0, max 4, each 2 bytes
big-endian, each closed by a zero tag byte), a 4-byte zero throttle-time
field, and a final zero tag byte. -/
theorem process_request_supported_body (h : KafkaRequestHeader)
    (b : List Nat)
    (hk : h.api_key = 17 ∨ h.api_key = 18 ∨ h.api_key = 19)
    (hv : 0 ≤ h.api_ver ∧ h.api_ver ≤ 4) :
    process_request h b = .ok (.ApiVersions ⟨h.correlation_id, API_VERS_INFO⟩) ∧
    encode_response (.ApiVersions ⟨h.correlation_id, API_VERS_INFO⟩) =
      i32_to_be_bytes h.correlation_id ++
      ([0, 0] ++ [4] ++
       ([0, 17, 0, 0, 0, 4, 0] ++ [0, 18, 0, 0, 0, 4, 0] ++
        [0, 19, 0, 0, 0, 4, 0]) ++
       [0, 0, 0, 0] ++ [0]) := by
  constructor
  · unfold process_request
    rcases hk with h17 | h18 | h19
    · rw [if_neg (by omega), if_pos (Or.inl h17), if_neg (by tauto)]
    · rw [if_pos h18, if_neg (by tauto)]
    · rw [if_neg (by omega), if_pos (Or.inr h19), if_neg (by tauto)]
  · simp only [encode_response, List.append_assoc]
    congr 1

/-- Witness for C1 at api key 18, version 4, correlation id `0x6f7fc661`:
the 33-byte body of the spec's success scenario. -/
theorem process_request_supported_body_witness :
    process_request ⟨18, 4, 1870644833, none⟩ [] =
      .ok (.ApiVersions ⟨1870644833, API_VERS_INFO⟩) ∧
    encode_response (.ApiVersions ⟨1870644833, API_VERS_INFO⟩) =
      [111, 127, 198, 97, 0, 0, 4, 0, 17, 0, 0, 0, 4, 0, 0, 18, 0, 0, 0, 4, 0,
       0, 19, 0, 0, 0, 4, 0, 0, 0, 0, 0, 0] := by
  have h := process_request_supported_body ⟨18, 4, 1870644833, none⟩ []
    (Or.inr (Or.inl rfl)) (by decide)
  exact ⟨h.1, h.2.trans (by decide)⟩

/-- Claim C8: for every response of either variant, the 4-byte big-endian
length prefix written by `write_response_with_len` decodes to exactly the
byte length of the encoded body that follows it; the encoder itself produces
only the body. -/
theorem wire_length_matches_body (r : KafkaResponse)
    (h : (encode_response r).length < 2147483648) :
    (send_response r).take 4 =
      i32_to_be_bytes ((encode_response r).length : Int) ∧
    i32_from_be_bytes ((send_response r).take 4) =
      ((encode_response r).length : Int) ∧
    (send_response r).drop 4 = encode_response r := by
  have ht : (send_response r).take 4 =
      i32_to_be_bytes ((encode_response r).length : Int) := rfl
  refine ⟨ht, ?_, rfl⟩
  rw [ht]
  exact i32_round (encode_response r).length h

/-- Witness for C8 at a concrete error response: the prefix decodes to the
6-byte body that follows. -/
theorem wire_length_matches_body_witness :
    (send_response (.Error ⟨7, 35⟩)).take 4 = [0, 0, 0, 6] ∧
    i32_from_be_bytes ((send_response (.Error ⟨7, 35⟩)).take 4) = 6 ∧
    (send_response (.Error ⟨7, 35⟩)).drop 4 = encode_response (.Error ⟨7, 35⟩) := by
  have h := wire_length_matches_body (.Error ⟨7, 35⟩) (by decide)
  exact ⟨h.1.trans (by decide), h.2.1.trans (by decide), h.2.2⟩

/-- Claim C10: for frames whose headers parse successfully, the wire bytes
written depend only on the header's api key, api version and correlation
id — frames differing in client id (present, absent, any content) or in
trailing body bytes produce byte-for-byte identical responses. -/
theorem response_depends_only_on_header_core (f1 f2 : List Nat)
    (h1 h2 : KafkaRequestHeader)
    (hp1 : KafkaRequestHeader.parse f1 = .ok h1)
    (hp2 : KafkaRequestHeader.parse f2 = .ok h2)
    (hk : h1.api_key = h2.api_key) (hv : h1.api_ver = h2.api_ver)
    (hc : h1.correlation_id = h2.correlation_id) :
    send_response (response_for h1 f1) = send_response (response_for h2 f2) := by
  obtain ⟨k1, v1, c1, cl1⟩ := h1
  obtain ⟨k2, v2, c2, cl2⟩ := h2
  dsimp only at hk hv hc
  subst hk
  subst hv
  subst hc
  rfl

/-- Witness for C10: two parseable frames that agree on api key 18, version
4 and correlation id 7 but differ in client id (absent vs the string `A`)
and in trailing body bytes get identical wire responses. -/
theorem response_depends_only_on_header_core_witness :
    send_response (response_for ⟨18, 4, 7, none⟩
      [0, 18, 0, 4, 0, 0, 0, 7, 255, 255]) =
    send_response (response_for ⟨18, 4, 7, some [65]⟩
      [0, 18, 0, 4, 0, 0, 0, 7, 0, 1, 65, 99]) :=
  response_depends_only_on_header_core
    [0, 18, 0, 4, 0, 0, 0, 7, 255, 255]
    [0, 18, 0, 4, 0, 0, 0, 7, 0, 1, 65, 99]
    ⟨18, 4, 7, none⟩ ⟨18, 4, 7, some [65]⟩
    (by decide) (by decide) rfl rfl rfl
